import Mathlib

/-!
Verification of the futbolapp backend (`src/index.js`, two revisions, and the
Google-auth revision in `src/unnamed/part_000`) against its natural-language
specification.  The Express route handlers and the PostgreSQL tables they touch
are shallowly embedded: each table is a list of rows plus a serial counter,
each handler is a pure function from the request and the store state to an
HTTP-level outcome and the new state.  SQL uniqueness / NOT NULL constraints
are modelled as part of the store operations (a violated constraint returns a
driver error, which the handler either catches or lets escape as an unhandled
promise rejection, in which case no HTTP response is sent).
-/

namespace Futbolapp

/-! ## Access guard (`authenticateToken`, index.js lines 111-121 and 362-372) -/

/-- Outcome of the `authenticateToken` middleware: either a response is sent
with the given status and the protected handler is never invoked, or the
verified claims are attached to `req.user` and `next()` runs the handler. -/
inductive GuardOutcome (α : Type) where
  | reject (status : Nat)
  | proceed (user : α)
deriving Repr, DecidableEq

/-- JS `String.prototype.split` with a single-character separator: split at
every occurrence, keeping empty pieces; the empty string yields `[""]`. -/
def splitOnChar (sep : Char) : List Char → List (List Char)
  | [] => [[]]
  | c :: rest =>
    match splitOnChar sep rest with
    | [] => [[c]]
    | h :: t => if c = sep then [] :: h :: t else (c :: h) :: t

/-- `s.split(sep)` for a one-character `sep`, as a `String` function. -/
def jsSplit (s : String) (sep : Char) : List String :=
  (splitOnChar sep s.data).map String.mk

/-- JS: `const token = authHeader && authHeader.split(' ')[1]`.
`none` models an absent header (token `undefined`, caught by `token == null`).
An empty-string header is falsy in JS, so the whole `&&` collapses to `""`,
which is NOT `== null`; a nonempty header is split on single spaces and the
second piece taken (`undefined`, i.e. `none`, when there is no second piece). -/
def extractToken (authHeader : Option String) : Option String :=
  match authHeader with
  | none => none
  | some h => if h = "" then some "" else (jsSplit h ' ')[1]?

/-- `authenticateToken(req, res, next)`: 401 when the extracted token is
`null`/`undefined`, 403 when `jwt.verify` fails, otherwise attach the verified
claims and run the handler.  `verify` abstracts `jwt.verify` with the server
secret: `none` models the error callback (bad signature, expiry, malformed). -/
def authenticateToken {α : Type} (verify : String → Option α) (authHeader : Option String) :
    GuardOutcome α :=
  match extractToken authHeader with
  | none => .reject 401
  | some t =>
    match verify t with
    | none => .reject 403
    | some u => .proceed u

/-! ## Users table and auth routes (index.js) -/

/-- A row of the `usuarios` table of `index.js` (both revisions): the
`password` column is `VARCHAR(255) NOT NULL` and stores the bcrypt hash. -/
structure Usuario where
  id : Nat
  nombre : String
  email : String
  password : String
deriving Repr, DecidableEq

/-- The `usuarios` table: rows plus the next value of the `SERIAL` id. -/
structure UserDb where
  rows : List Usuario
  nextId : Nat
deriving Repr, DecidableEq

/-- PostgreSQL error classes surfaced by the driver that this code can hit:
`23505` (unique constraint) and `23502` (NOT NULL constraint). -/
inductive DbError where
  | uniqueViolation
  | notNullViolation
deriving Repr, DecidableEq

/-- `INSERT INTO usuarios (nombre, email, password) VALUES ($1,$2,$3)
RETURNING id, nombre, email`: the UNIQUE constraint on `email` makes the
insert fail atomically with error code 23505 when the email is taken. -/
def insertUsuario (db : UserDb) (nombre email passwordHash : String) :
    Except DbError (UserDb × Usuario) :=
  if db.rows.any (fun u => u.email == email) then
    .error .uniqueViolation
  else
    let u : Usuario := ⟨db.nextId, nombre, email, passwordHash⟩
    .ok (⟨db.rows ++ [u], db.nextId + 1⟩, u)

/-- HTTP-level response of the auth routes: status code, `message` field, and
the public projection of the user (id, nombre, email) when one is returned. -/
structure AuthResp where
  status : Nat
  message : String
  userId : Option Nat
deriving Repr, DecidableEq

/-- `POST /auth/register` (index.js lines 126-151 and 376-401): 400 on a falsy
field, otherwise hash the password and insert; a caught error with code 23505
becomes 409, any other caught error becomes 500.  `bcryptHash` abstracts
`bcrypt.hash(password, salt)`. -/
def register (bcryptHash : String → String) (db : UserDb)
    (nombre email password : String) : AuthResp × UserDb :=
  if nombre = "" ∨ email = "" ∨ password = "" then
    (⟨400, "Nombre, email y contraseña son requeridos.", none⟩, db)
  else
    match insertUsuario db nombre email (bcryptHash password) with
    | .ok (db', u) => (⟨201, "Usuario registrado con éxito", some u.id⟩, db')
    | .error .uniqueViolation =>
        (⟨409, "El correo electrónico ya está registrado.", none⟩, db)
    | .error _ => (⟨500, "Error interno del servidor", none⟩, db)

/-- `POST /auth/login` (index.js lines 154-182 and 403-431): 400 on a falsy
field; `SELECT * FROM usuarios WHERE email = $1`; 401 with the one generic
message when no row matches; `bcrypt.compare` against the stored hash; the
same 401 when it fails; 200 with the public projection on success.
`bcryptCompare password hash` abstracts `bcrypt.compare(password, hash)`. -/
def login (bcryptCompare : String → String → Bool) (db : UserDb)
    (email password : String) : AuthResp :=
  if email = "" ∨ password = "" then
    ⟨400, "Email y contraseña son requeridos.", none⟩
  else
    match db.rows.find? (fun u => u.email == email) with
    | none => ⟨401, "Credenciales incorrectas.", none⟩
    | some u =>
      if bcryptCompare password u.password then
        ⟨200, "Inicio de sesión exitoso", some u.id⟩
      else
        ⟨401, "Credenciales incorrectas.", none⟩

/-! ## Cart (`carrito` table and `POST /api/carrito/add`) -/

/-- A row of the `carrito` table: `UNIQUE(usuario_id, producto_id)`,
`cantidad INT NOT NULL DEFAULT 1`. -/
structure CartRow where
  id : Nat
  usuario_id : Nat
  producto_id : Nat
  cantidad : Int
deriving Repr, DecidableEq

/-- The `carrito` table: rows plus the next value of the `SERIAL` id. -/
structure CarritoState where
  rows : List CartRow
  nextId : Nat
deriving Repr, DecidableEq

/-- The JSON body of `POST /api/carrito/add`; a missing field destructures to
`undefined`, modelled as `none`, and is sent to the database as SQL NULL. -/
structure CartAddBody where
  producto_id : Option Nat
  cantidad : Option Int
deriving Repr, DecidableEq

/-- The conflict target / WHERE predicate on `carrito`: the row for the pair
(usuario_id, producto_id). -/
def cartKey (uid pid : Nat) (r : CartRow) : Bool :=
  r.usuario_id == uid && r.producto_id == pid

/-- The upsert statement of both cart-add handlers:
`INSERT INTO carrito (usuario_id, producto_id, cantidad) VALUES ($1,$2,$3)
ON CONFLICT (usuario_id, producto_id) DO UPDATE SET
cantidad = carrito.cantidad + $3 RETURNING *`.
A NULL `producto_id` violates its NOT NULL constraint; an explicit NULL
`cantidad` violates NOT NULL on insert (the column is named in the insert list,
so the DEFAULT does not apply) and makes `carrito.cantidad + NULL` NULL on the
conflict branch, violating it there too. -/
def carritoUpsert (st : CarritoState) (uid : Nat) (pid : Option Nat)
    (qty : Option Int) : Except DbError (CarritoState × CartRow) :=
  match pid with
  | none => .error .notNullViolation
  | some p =>
    match qty with
    | none => .error .notNullViolation
    | some q =>
      match st.rows.find? (cartKey uid p) with
      | some r =>
        let r' : CartRow := { r with cantidad := r.cantidad + q }
        (.ok
          ({ st with
              rows := st.rows.map fun s => if cartKey uid p s then r' else s },
           r'))
      | none =>
        let r' : CartRow := ⟨st.nextId, uid, p, q⟩
        .ok (⟨st.rows ++ [r'], st.nextId + 1⟩, r')

/-- JS `cantidad || 1`: `undefined` and `0` are falsy and give `1`. -/
def jsOrOne (c : Option Int) : Int :=
  match c with
  | none => 1
  | some v => if v = 0 then 1 else v

/-- First revision of `POST /api/carrito/add` (index.js lines 214-226): the
body's `cantidad` is passed to the query unchanged. -/
def carritoAdd_v1 (st : CarritoState) (uid : Nat) (body : CartAddBody) :
    Except DbError (CarritoState × CartRow) :=
  carritoUpsert st uid body.producto_id body.cantidad

/-- Second revision of `POST /api/carrito/add` (index.js lines 440-452): the
query receives `cantidad || 1`. -/
def carritoAdd_v2 (st : CarritoState) (uid : Nat) (body : CartAddBody) :
    Except DbError (CarritoState × CartRow) :=
  carritoUpsert st uid body.producto_id (some (jsOrOne body.cantidad))

/-- HTTP-level outcome of a cart-add handler.  Neither handler has a
try/catch, so a query error is an unhandled promise rejection: no response is
sent at all (`statusOf` is `none`), in particular no 400. -/
inductive CartAddResult where
  | created (row : CartRow)
  | unhandled (e : DbError)
deriving Repr, DecidableEq

/-- The HTTP status actually sent by a cart-add outcome: 201 on success,
nothing when the query rejected (no response is ever written). -/
def CartAddResult.statusOf : CartAddResult → Option Nat
  | .created _ => some 201
  | .unhandled _ => none

/-- Route-level wrapper for the first cart-add revision: on success respond
`201` with the returned row; a store error escapes, leaving the state
unchanged. -/
def carritoAddRoute_v1 (st : CarritoState) (uid : Nat) (body : CartAddBody) :
    CartAddResult × CarritoState :=
  match carritoAdd_v1 st uid body with
  | .ok (st', row) => (.created row, st')
  | .error e => (.unhandled e, st)

/-- Route-level wrapper for the second cart-add revision. -/
def carritoAddRoute_v2 (st : CarritoState) (uid : Nat) (body : CartAddBody) :
    CartAddResult × CarritoState :=
  match carritoAdd_v2 st uid body with
  | .ok (st', row) => (.created row, st')
  | .error e => (.unhandled e, st)

/-- The cart rows belonging to the pair (user, product). -/
def rowsFor (st : CarritoState) (uid pid : Nat) : List CartRow :=
  st.rows.filter (cartKey uid pid)

/-! ## Preference (`preferencias_usuario` table and `POST /api/preferencias`) -/

/-- A row of `preferencias_usuario`: `usuario_id INT NOT NULL UNIQUE`. -/
structure PrefRow where
  id : Nat
  usuario_id : Nat
  equipo_favorito_id : Int
  equipo_favorito_nombre : String
  equipo_favorito_logo : String
deriving Repr, DecidableEq

/-- The `preferencias_usuario` table: rows plus next `SERIAL` id. -/
structure PrefState where
  rows : List PrefRow
  nextId : Nat
deriving Repr, DecidableEq

/-- The conflict target / WHERE predicate on `preferencias_usuario`: the row
owned by a user (`usuario_id` is UNIQUE). -/
def prefKey (uid : Nat) (r : PrefRow) : Bool :=
  r.usuario_id == uid

/-- The upsert of `POST /api/preferencias` (index.js lines 478-498):
`INSERT INTO preferencias_usuario (...) VALUES ($1,$2,$3,$4)
ON CONFLICT (usuario_id) DO UPDATE SET equipo_favorito_id = $2,
equipo_favorito_nombre = $3, equipo_favorito_logo = $4 RETURNING *`. -/
def prefUpsert (st : PrefState) (uid : Nat) (eid : Int) (nombre logo : String) :
    PrefState × PrefRow :=
  match st.rows.find? (prefKey uid) with
  | some r =>
    let r' : PrefRow := { r with
      equipo_favorito_id := eid
      equipo_favorito_nombre := nombre
      equipo_favorito_logo := logo }
    ({ st with rows := st.rows.map fun s => if prefKey uid s then r' else s },
     r')
  | none =>
    let r' : PrefRow := ⟨st.nextId, uid, eid, nombre, logo⟩
    (⟨st.rows ++ [r'], st.nextId + 1⟩, r')

/-- HTTP response of `POST /api/preferencias`: 400 on a falsy field, else 201
with the row the upsert returned. -/
inductive PrefResp where
  | badRequest
  | created (row : PrefRow)
deriving Repr, DecidableEq

/-- `POST /api/preferencias` handler: `if (!equipo_id || !nombre || !logo)`
responds 400 (JS falsiness: `0` and `""` count as missing); otherwise run the
upsert and respond `201` with the returned row. -/
def preferenciasRoute (st : PrefState) (uid : Nat) (eid : Int)
    (nombre logo : String) : PrefResp × PrefState :=
  if eid = 0 ∨ nombre = "" ∨ logo = "" then
    (.badRequest, st)
  else
    let (st', r) := prefUpsert st uid eid nombre logo
    (.created r, st')

/-- The preference rows belonging to a user. -/
def prefRowsFor (st : PrefState) (uid : Nat) : List PrefRow :=
  st.rows.filter (prefKey uid)

/-- One set-preference request, as an element of an arbitrary sequence of
operations against the table (any caller, any payload). -/
structure PrefOp where
  uid : Nat
  eid : Int
  nombre : String
  logo : String
deriving Repr, DecidableEq

/-- Apply a sequence of set-preference requests, oldest first. -/
def applyPrefOps (ops : List PrefOp) (st : PrefState) : PrefState :=
  ops.foldl (fun s op => (preferenciasRoute s op.uid op.eid op.nombre op.logo).2) st

/-! ## Wishlist (`camisetas_guardadas` table) -/

/-- A row of `camisetas_guardadas`: `UNIQUE(usuario_id, producto_id)`,
existence only (no quantity). -/
structure SavedRow where
  id : Nat
  usuario_id : Nat
  producto_id : Nat
deriving Repr, DecidableEq

/-- The `camisetas_guardadas` table: rows plus next `SERIAL` id. -/
structure SavedState where
  rows : List SavedRow
  nextId : Nat
deriving Repr, DecidableEq

/-- Modelled from the spec: the save-wishlist-item handler
(`POST /api/saved-items` in the spec's interface table) is not present under
`src` — only the `camisetas_guardadas` table definition (index.js lines
312-318, with its `UNIQUE(usuario_id, producto_id)` constraint) and the GET
route (lines 502-510) are.  Per the spec: on conflict, no-op; respond 200
("already saved") instead of the 201 used for a fresh insert, so callers can
tell create from idempotent repeat. -/
def guardarCamiseta (st : SavedState) (uid pid : Nat) : SavedState × Nat :=
  if st.rows.any (fun r => r.usuario_id == uid && r.producto_id == pid) then
    (st, 200)
  else
    (⟨st.rows ++ [⟨st.nextId, uid, pid⟩], st.nextId + 1⟩, 201)

/-- The wishlist rows belonging to the pair (user, product). -/
def savedRowsFor (st : SavedState) (uid pid : Nat) : List SavedRow :=
  st.rows.filter (fun r => r.usuario_id == uid && r.producto_id == pid)

/-- The per-user invariant the claims call out for preferences: at most one
row per user, for every user. -/
def prefInv (st : PrefState) : Prop :=
  ∀ uid, (prefRowsFor st uid).length ≤ 1

/-! ## Google federated login (`src/unnamed/part_000`, `POST /auth/google`) -/

/-- A row of the `usuarios` table of the Google-auth revision: `password` is
nullable (federated accounts have none) and `google_id VARCHAR(255) UNIQUE`. -/
structure GUser where
  id : Nat
  nombre : String
  email : String
  password : Option String
  google_id : Option String
deriving Repr, DecidableEq

/-- The `usuarios` table of the Google-auth revision. -/
structure GUserDb where
  rows : List GUser
  nextId : Nat
deriving Repr, DecidableEq

/-- `INSERT INTO usuarios (nombre, email, google_id) VALUES ($1,$2,$3)
RETURNING *` (part_000 lines 85-88): `password` is left NULL; the UNIQUE
constraints on `email` and on `google_id` each raise 23505 when violated. -/
def gInsertUsuario (db : GUserDb) (nombre email gid : String) :
    Except DbError (GUserDb × GUser) :=
  if db.rows.any (fun u => u.email == email) then
    .error .uniqueViolation
  else if db.rows.any (fun u => u.google_id == some gid) then
    .error .uniqueViolation
  else
    let u : GUser := ⟨db.nextId, nombre, email, none, some gid⟩
    .ok (⟨db.rows ++ [u], db.nextId + 1⟩, u)

/-- `UPDATE usuarios SET google_id = $1 WHERE email = $2` (part_000 line 80):
raises 23505 when a row outside the WHERE clause already holds this
`google_id`. -/
def gAttachGoogleId (db : GUserDb) (gid email : String) :
    Except DbError GUserDb :=
  if db.rows.any (fun u => u.email != email && u.google_id == some gid) then
    .error .uniqueViolation
  else
    .ok { db with
      rows := db.rows.map fun u =>
        if u.email == email then { u with google_id := some gid } else u }

/-- HTTP response of `POST /auth/google`: status, and the `userId` claim of
the issued session token when one is issued (200 path only; any thrown error
is caught and answered with 401 "Autenticación fallida"). -/
structure GoogleResp where
  status : Nat
  tokenUserId : Option Nat
deriving Repr, DecidableEq

/-- `POST /auth/google` (part_000 lines 59-114), after `verifyIdToken` has
succeeded with payload `{sub := gid, email, name}`: look the user up by email;
if found and its `google_id` is falsy, attach `gid`; if found with a
`google_id`, use the row as is; if absent, insert a fresh row with NULL
password and `gid` attached; in every successful case sign a JWT with the
row's id.  Any database error is caught by the surrounding try/catch and
answered 401. -/
def authGoogle (db : GUserDb) (gid email name : String) : GoogleResp × GUserDb :=
  match db.rows.find? (fun u => u.email == email) with
  | some u =>
    match u.google_id with
    | none =>
      match gAttachGoogleId db gid email with
      | .ok db' => (⟨200, some u.id⟩, db')
      | .error _ => (⟨401, none⟩, db)
    | some _ => (⟨200, some u.id⟩, db)
  | none =>
    match gInsertUsuario db name email gid with
    | .ok (db', u) => (⟨200, some u.id⟩, db')
    | .error _ => (⟨401, none⟩, db)

/-! ## General list lemmas shared by the claim proofs -/

theorem find?_eq_none_of_filter_eq_nil {α : Type} {p : α → Bool} {l : List α}
    (h : l.filter p = []) : l.find? p = none := by
  rw [List.find?_eq_none]
  intro x hx
  exact (List.filter_eq_nil_iff.1 h) x hx

theorem filter_eq_nil_of_find?_eq_none {α : Type} {p : α → Bool} {l : List α}
    (h : l.find? p = none) : l.filter p = [] := by
  rw [List.filter_eq_nil_iff]
  intro x hx
  exact (List.find?_eq_none.1 h) x hx

theorem find?_append_singleton {α : Type} {p : α → Bool} {l : List α} {x : α}
    (h : l.find? p = none) (hx : p x = true) : (l ++ [x]).find? p = some x := by
  simp [List.find?_append, h, hx]

theorem filter_map_update {α : Type} (p : α → Bool) (r' : α) (hr' : p r' = true)
    (l : List α) :
    (l.map fun s => if p s then r' else s).filter p = (l.filter p).map fun _ => r' := by
  induction l with
  | nil => rfl
  | cons a t ih => by_cases h : p a <;> simp [h, hr', ih]

theorem filter_map_update_of_disjoint {α : Type} (p q : α → Bool) (r' : α)
    (hpq : ∀ s, p s = true → q s = false) (hr' : q r' = false) (l : List α) :
    (l.map fun s => if p s then r' else s).filter q = l.filter q := by
  induction l with
  | nil => rfl
  | cons a t ih =>
    by_cases h : p a
    · have hqa : q a = false := hpq a h
      simp [h, hr', hqa, ih]
    · simp [List.filter_cons, h, ih]

theorem filter_eq_singleton_of_find? {α : Type} {p : α → Bool} {l : List α} {r : α}
    (hf : l.find? p = some r) (hlen : (l.filter p).length ≤ 1) : l.filter p = [r] := by
  induction l with
  | nil => simp at hf
  | cons a t ih =>
    by_cases h : p a
    · rw [List.find?_cons_of_pos _ h] at hf
      obtain rfl : a = r := by injection hf
      rw [List.filter_cons_of_pos h] at hlen ⊢
      have ht : t.filter p = [] :=
        List.length_eq_zero.mp (Nat.le_zero.mp (Nat.le_of_succ_le_succ hlen))
      rw [ht]
    · rw [List.find?_cons_of_neg _ h] at hf
      rw [List.filter_cons_of_neg h] at hlen ⊢
      exact ih hf hlen

theorem find?_eq_some_of_filter_eq_singleton {α : Type} {p : α → Bool}
    {l : List α} {r : α} (h : l.filter p = [r]) : l.find? p = some r := by
  induction l with
  | nil => simp at h
  | cons a t ih =>
    by_cases hpa : p a
    · rw [List.filter_cons_of_pos hpa] at h
      injection h with h1 h2
      subst h1
      exact List.find?_cons_of_pos _ hpa
    · rw [List.filter_cons_of_neg hpa] at h
      rw [List.find?_cons_of_neg _ hpa]
      exact ih h

/-! ## Unfolding lemmas for the cart upsert -/

theorem carritoUpsert_insert (st : CarritoState) (uid pid : Nat) (q : Int)
    (hfind : st.rows.find? (cartKey uid pid) = none) :
    carritoUpsert st uid (some pid) (some q)
      = .ok (⟨st.rows ++ [⟨st.nextId, uid, pid, q⟩], st.nextId + 1⟩,
             ⟨st.nextId, uid, pid, q⟩) := by
  simp [carritoUpsert, hfind]

theorem carritoUpsert_update (st : CarritoState) (uid pid : Nat) (q : Int)
    (r : CartRow) (hfind : st.rows.find? (cartKey uid pid) = some r) :
    carritoUpsert st uid (some pid) (some q)
      = .ok ({ st with rows := st.rows.map fun s =>
                if cartKey uid pid s then { r with cantidad := r.cantidad + q }
                else s },
             { r with cantidad := r.cantidad + q }) := by
  simp [carritoUpsert, hfind]

theorem jsOrOne_of_ne (q : Int) (hq : q ≠ 0) : jsOrOne (some q) = q := by
  simp [jsOrOne, hq]

/-! ## Unfolding lemmas for the preference upsert and route -/

theorem prefUpsert_insert (st : PrefState) (u : Nat) (e : Int) (n l : String)
    (hfind : st.rows.find? (prefKey u) = none) :
    prefUpsert st u e n l
      = (⟨st.rows ++ [⟨st.nextId, u, e, n, l⟩], st.nextId + 1⟩,
         ⟨st.nextId, u, e, n, l⟩) := by
  simp [prefUpsert, hfind]

theorem prefUpsert_update (st : PrefState) (u : Nat) (e : Int) (n l : String)
    (r : PrefRow) (hfind : st.rows.find? (prefKey u) = some r) :
    prefUpsert st u e n l
      = ({ st with rows := st.rows.map (fun s => if prefKey u s then
            { r with
              equipo_favorito_id := e
              equipo_favorito_nombre := n
              equipo_favorito_logo := l } else s) },
         { r with
           equipo_favorito_id := e
           equipo_favorito_nombre := n
           equipo_favorito_logo := l }) := by
  simp [prefUpsert, hfind]

theorem preferenciasRoute_invalid (st : PrefState) (u : Nat) (e : Int)
    (n l : String) (h : e = 0 ∨ n = "" ∨ l = "") :
    preferenciasRoute st u e n l = (.badRequest, st) := by
  simp [preferenciasRoute, h]

theorem preferenciasRoute_valid (st : PrefState) (u : Nat) (e : Int)
    (n l : String) (he : e ≠ 0) (hn : n ≠ "") (hl : l ≠ "") :
    preferenciasRoute st u e n l
      = (.created (prefUpsert st u e n l).2, (prefUpsert st u e n l).1) := by
  rcases hp : prefUpsert st u e n l with ⟨st', r⟩
  simp [preferenciasRoute, he, hn, hl, hp]

theorem preferenciasRoute_inv (st : PrefState) (u : Nat) (e : Int)
    (n l : String) (hinv : prefInv st) :
    prefInv (preferenciasRoute st u e n l).2 := by
  by_cases hval : e = 0 ∨ n = "" ∨ l = ""
  · rw [preferenciasRoute_invalid st u e n l hval]
    exact hinv
  · push_neg at hval
    obtain ⟨he, hn, hl⟩ := hval
    rw [preferenciasRoute_valid st u e n l he hn hl]
    intro uid
    cases hfind : st.rows.find? (prefKey u) with
    | none =>
      rw [prefUpsert_insert st u e n l hfind]
      by_cases huid : uid = u
      · subst huid
        have hfil : st.rows.filter (prefKey uid) = [] :=
          filter_eq_nil_of_find?_eq_none hfind
        simp [prefRowsFor, List.filter_append, hfil, prefKey]
      · have hne : prefKey uid (⟨st.nextId, u, e, n, l⟩ : PrefRow) = false := by
          simp [prefKey]
          exact fun h => huid h.symm
        simp only [prefRowsFor, List.filter_append]
        simp [hne]
        exact hinv uid
    | some r =>
      rw [prefUpsert_update st u e n l r hfind]
      have hkr : prefKey u r = true := List.find?_some hfind
      by_cases huid : uid = u
      · subst huid
        have hkr' : prefKey uid ({ r with
            equipo_favorito_id := e
            equipo_favorito_nombre := n
            equipo_favorito_logo := l } : PrefRow) = true := by
          simpa [prefKey] using hkr
        simp only [prefRowsFor]
        rw [filter_map_update _ _ hkr']
        simpa using hinv uid
      · have hpq : ∀ s, prefKey u s = true → prefKey uid s = false := by
          intro s hs
          simp [prefKey] at hs ⊢
          rw [hs]
          exact fun h => huid h.symm
        have hr' : prefKey uid ({ r with
            equipo_favorito_id := e
            equipo_favorito_nombre := n
            equipo_favorito_logo := l } : PrefRow) = false := by
          have := hpq r hkr
          simp [prefKey] at this ⊢
          exact this
        simp only [prefRowsFor]
        rw [filter_map_update_of_disjoint _ _ _ hpq hr']
        exact hinv uid

theorem applyPrefOps_inv (ops : List PrefOp) (st : PrefState)
    (hinv : prefInv st) : prefInv (applyPrefOps ops st) := by
  induction ops generalizing st with
  | nil => exact hinv
  | cons op rest ih =>
    simp only [applyPrefOps, List.foldl_cons]
    exact ih _ (preferenciasRoute_inv st op.uid op.eid op.nombre op.logo hinv)

/-! ## Claim theorems -/

/-- Claim C2: for every request to a protected endpoint, an absent
Authorization header is rejected with 401 without invoking the handler; an
extracted token that fails verification is rejected with 403 without invoking
the handler; a token that verifies has its claims attached and the handler
runs (`proceed`). -/
theorem claim_C2 {α : Type} (verify : String → Option α) (h : Option String) :
    (h = none → authenticateToken verify h = .reject 401) ∧
    (∀ t, extractToken h = some t → verify t = none →
      authenticateToken verify h = .reject 403) ∧
    (∀ t u, extractToken h = some t → verify t = some u →
      authenticateToken verify h = .proceed u) := by
  refine ⟨fun hn => ?_, fun t ht hv => ?_, fun t u ht hv => ?_⟩
  · subst hn; rfl
  · simp [authenticateToken, ht, hv]
  · simp [authenticateToken, ht, hv]

/-- Witness for C2 at a concrete verifier and three concrete headers. -/
theorem claim_C2_witness :
    authenticateToken (fun t => if t = "k" then some (0 : Nat) else none) none
      = .reject 401 ∧
    authenticateToken (fun t => if t = "k" then some (0 : Nat) else none)
      (some "Bearer bad") = .reject 403 ∧
    authenticateToken (fun t => if t = "k" then some (0 : Nat) else none)
      (some "Bearer k") = .proceed 0 :=
  ⟨(claim_C2 _ none).1 rfl,
   (claim_C2 _ (some "Bearer bad")).2.1 "bad" (by decide) (by decide),
   (claim_C2 _ (some "Bearer k")).2.2 "k" 0 (by decide) (by decide)⟩

/-- Claim C10: the guard never inspects the authorization scheme — whenever
the header has a second space-separated word, that word is what gets verified
(whatever the first word is), and a single-word header is rejected 401 (token
`undefined`), not 403. -/
theorem claim_C10 {α : Type} (verify : String → Option α) (h : String) :
    (∀ t, (jsSplit h ' ')[1]? = some t →
      authenticateToken verify (some h) =
        match verify t with
        | none => .reject 403
        | some u => .proceed u) ∧
    ((jsSplit h ' ').length = 1 → h ≠ "" →
      authenticateToken verify (some h) = .reject 401) := by
  constructor
  · intro t ht
    have hne : h ≠ "" := by
      intro he
      subst he
      have hnil : (jsSplit "" ' ')[1]? = (none : Option String) := rfl
      rw [hnil] at ht
      exact Option.noConfusion ht
    have hex : extractToken (some h) = some t := by
      simp [extractToken, hne, ht]
    simp only [authenticateToken, hex]
  · intro hlen hne
    have h1 : (jsSplit h ' ')[1]? = none :=
      List.getElem?_eq_none (Nat.le_of_eq hlen)
    simp [authenticateToken, extractToken, hne, h1]

/-- Witness for C10: "Basic k" is accepted when "k" verifies (the Basic
scheme is not rejected), and a bare "Bearer" with no token gets 401. -/
theorem claim_C10_witness :
    authenticateToken (fun t => if t = "s" then some (5 : Nat) else none)
      (some "Basic s") = .proceed 5 ∧
    authenticateToken (fun t => if t = "s" then some (5 : Nat) else none)
      (some "Bearer") = .reject 401 := by
  constructor
  · have := (claim_C10 (fun t => if t = "s" then some (5 : Nat) else none)
      "Basic s").1 "s" (by decide)
    simpa using this
  · exact (claim_C10 _ "Bearer").2 (by decide) (by decide)

/-- Claim C5: login with an email that has no user row and login with an
existing email whose stored hash does not verify produce the same response:
status 401 and the same generic message, indistinguishable to the caller. -/
theorem claim_C5 (bcryptCompare : String → String → Bool) (db : UserDb)
    (e1 p1 e2 p2 : String)
    (he1 : e1 ≠ "") (hp1 : p1 ≠ "") (he2 : e2 ≠ "") (hp2 : p2 ≠ "")
    (hnone : db.rows.find? (fun u => u.email == e1) = none)
    (u : Usuario) (hsome : db.rows.find? (fun u => u.email == e2) = some u)
    (hbad : bcryptCompare p2 u.password = false) :
    login bcryptCompare db e1 p1 = login bcryptCompare db e2 p2 ∧
    (login bcryptCompare db e1 p1).status = 401 ∧
    (login bcryptCompare db e1 p1).message = "Credenciales incorrectas." := by
  simp [login, he1, hp1, he2, hp2, hnone, hsome, hbad]

/-- Witness for C5: one user "a" with hash "H", a comparator that rejects,
a nonexistent email "b". -/
theorem claim_C5_witness :
    login (fun _ _ => false) ⟨[⟨1, "n", "a", "H"⟩], 2⟩ "b" "p"
      = login (fun _ _ => false) ⟨[⟨1, "n", "a", "H"⟩], 2⟩ "a" "q" ∧
    (login (fun _ _ => false) ⟨[⟨1, "n", "a", "H"⟩], 2⟩ "b" "p").status = 401 ∧
    (login (fun _ _ => false) ⟨[⟨1, "n", "a", "H"⟩], 2⟩ "b" "p").message
      = "Credenciales incorrectas." :=
  claim_C5 (fun _ _ => false) ⟨[⟨1, "n", "a", "H"⟩], 2⟩ "b" "p" "a" "q"
    (by decide) (by decide) (by decide) (by decide)
    (by decide) ⟨1, "n", "a", "H"⟩ (by decide) rfl

/-- Claim C6: registering with an email that already has a row responds 409
with the duplicate-email message, for every password, and leaves the user
table unchanged (no row created); the 409 arises from the store's
unique-constraint error (code 23505) caught in the handler, there being no
prior existence check in the route. -/
theorem claim_C6 (bcryptHash : String → String) (db : UserDb)
    (nombre email password : String)
    (hn : nombre ≠ "") (he : email ≠ "") (hp : password ≠ "")
    (hdup : ∃ u ∈ db.rows, u.email = email) :
    register bcryptHash db nombre email password
      = (⟨409, "El correo electrónico ya está registrado.", none⟩, db) := by
  obtain ⟨u, hu, hue⟩ := hdup
  have hany : db.rows.any (fun v => v.email == email) = true := by
    rw [List.any_eq_true]
    exact ⟨u, hu, by simp [hue]⟩
  simp [register, insertUsuario, hn, he, hp, hany]

/-- Witness for C6: a table holding email "a", registration with a fresh name
and password for the same email. -/
theorem claim_C6_witness :
    register (fun s => s) ⟨[⟨1, "n", "a", "H"⟩], 2⟩ "m" "a" "q"
      = (⟨409, "El correo electrónico ya está registrado.", none⟩,
         ⟨[⟨1, "n", "a", "H"⟩], 2⟩) :=
  claim_C6 (fun s => s) ⟨[⟨1, "n", "a", "H"⟩], 2⟩ "m" "a" "q"
    (by decide) (by decide) (by decide) ⟨⟨1, "n", "a", "H"⟩, by decide, rfl⟩

/-- Claim C1: adding the same product to a user's cart twice with positive
quantities q1 and q2, starting from a cart with no row for the (user, product)
pair, responds 201 both times and leaves exactly one row for the pair, whose
quantity is q1 + q2 — in both revisions of the handler. -/
theorem claim_C1 (st : CarritoState) (uid pid : Nat) (q1 q2 : Int)
    (hq1 : 0 < q1) (hq2 : 0 < q2) (habs : rowsFor st uid pid = []) :
    ∃ st1 st2 r2,
      carritoAddRoute_v1 st uid ⟨some pid, some q1⟩
        = (.created ⟨st.nextId, uid, pid, q1⟩, st1) ∧
      carritoAddRoute_v2 st uid ⟨some pid, some q1⟩
        = (.created ⟨st.nextId, uid, pid, q1⟩, st1) ∧
      carritoAddRoute_v1 st1 uid ⟨some pid, some q2⟩ = (.created r2, st2) ∧
      carritoAddRoute_v2 st1 uid ⟨some pid, some q2⟩ = (.created r2, st2) ∧
      rowsFor st2 uid pid = [r2] ∧
      r2.cantidad = q1 + q2 := by
  have hfil : st.rows.filter (cartKey uid pid) = [] := habs
  have hfind : st.rows.find? (cartKey uid pid) = none :=
    find?_eq_none_of_filter_eq_nil hfil
  have hkr1 : cartKey uid pid (⟨st.nextId, uid, pid, q1⟩ : CartRow) = true := by
    simp [cartKey]
  have hfind1 : (st.rows ++ [(⟨st.nextId, uid, pid, q1⟩ : CartRow)]).find?
      (cartKey uid pid) = some ⟨st.nextId, uid, pid, q1⟩ :=
    find?_append_singleton hfind hkr1
  refine ⟨⟨st.rows ++ [⟨st.nextId, uid, pid, q1⟩], st.nextId + 1⟩,
    ⟨(st.rows ++ [(⟨st.nextId, uid, pid, q1⟩ : CartRow)]).map
        fun s => if cartKey uid pid s then ⟨st.nextId, uid, pid, q1 + q2⟩ else s,
      st.nextId + 1⟩,
    ⟨st.nextId, uid, pid, q1 + q2⟩, ?_, ?_, ?_, ?_, ?_, rfl⟩
  · simp [carritoAddRoute_v1, carritoAdd_v1, carritoUpsert_insert st uid pid q1 hfind]
  · simp [carritoAddRoute_v2, carritoAdd_v2, jsOrOne_of_ne q1 hq1.ne',
      carritoUpsert_insert st uid pid q1 hfind]
  · simp [carritoAddRoute_v1, carritoAdd_v1, hkr1,
      carritoUpsert_update
        ⟨st.rows ++ [⟨st.nextId, uid, pid, q1⟩], st.nextId + 1⟩
        uid pid q2 ⟨st.nextId, uid, pid, q1⟩ hfind1]
  · simp [carritoAddRoute_v2, carritoAdd_v2, jsOrOne_of_ne q2 hq2.ne', hkr1,
      carritoUpsert_update
        ⟨st.rows ++ [⟨st.nextId, uid, pid, q1⟩], st.nextId + 1⟩
        uid pid q2 ⟨st.nextId, uid, pid, q1⟩ hfind1]
  · have hk2 : cartKey uid pid (⟨st.nextId, uid, pid, q1 + q2⟩ : CartRow) = true := by
      simp [cartKey]
    simp only [rowsFor, filter_map_update _ _ hk2, List.filter_append, hfil]
    simp [hkr1]

/-- Witness for C1: empty cart, user 1, product 2, quantities 2 and 3. -/
theorem claim_C1_witness :
    (0 : Int) < 2 ∧ (0 : Int) < 3 ∧ rowsFor ⟨[], 0⟩ 1 2 = [] ∧
    (∃ st1 st2 r2,
      carritoAddRoute_v1 ⟨[], 0⟩ 1 ⟨some 2, some 2⟩ = (.created ⟨0, 1, 2, 2⟩, st1) ∧
      carritoAddRoute_v2 ⟨[], 0⟩ 1 ⟨some 2, some 2⟩ = (.created ⟨0, 1, 2, 2⟩, st1) ∧
      carritoAddRoute_v1 st1 1 ⟨some 2, some 3⟩ = (.created r2, st2) ∧
      carritoAddRoute_v2 st1 1 ⟨some 2, some 3⟩ = (.created r2, st2) ∧
      rowsFor st2 1 2 = [r2] ∧
      r2.cantidad = 2 + 3) :=
  ⟨by decide, by decide, rfl, claim_C1 ⟨[], 0⟩ 1 2 2 3 (by decide) (by decide) rfl⟩

/-- Claim C7 counterexample: an authenticated cart-add with no productId does
NOT respond 400 — the handlers run the insert with a NULL product id, the NOT
NULL constraint rejects it, and the rejection is unhandled (no try/catch), so
no response at all is sent. -/
theorem claim_C7_counterexample :
    (⟨none, some 2⟩ : CartAddBody).producto_id = none ∧
    carritoAddRoute_v1 ⟨[], 0⟩ 1 ⟨none, some 2⟩
      = (.unhandled .notNullViolation, ⟨[], 0⟩) ∧
    carritoAddRoute_v2 ⟨[], 0⟩ 1 ⟨none, some 2⟩
      = (.unhandled .notNullViolation, ⟨[], 0⟩) ∧
    (CartAddResult.unhandled DbError.notNullViolation).statusOf ≠ some 400 := by
  decide

/-- Claim C7 (amended): a cart-add request with no productId leaves the cart
unchanged, but instead of a 400 the insert fails with the store's NOT NULL
violation and the error escapes the handler unhandled (no HTTP status is
sent, in particular not 400). -/
theorem claim_C7 (st : CarritoState) (uid : Nat) (body : CartAddBody)
    (h : body.producto_id = none) :
    carritoAddRoute_v1 st uid body = (.unhandled .notNullViolation, st) ∧
    carritoAddRoute_v2 st uid body = (.unhandled .notNullViolation, st) ∧
    (carritoAddRoute_v1 st uid body).1.statusOf ≠ some 400 ∧
    (carritoAddRoute_v2 st uid body).1.statusOf ≠ some 400 := by
  have h1 : carritoAdd_v1 st uid body = .error .notNullViolation := by
    simp [carritoAdd_v1, carritoUpsert, h]
  have h2 : carritoAdd_v2 st uid body = .error .notNullViolation := by
    simp [carritoAdd_v2, carritoUpsert, h]
  refine ⟨?_, ?_, ?_, ?_⟩ <;>
    simp [carritoAddRoute_v1, carritoAddRoute_v2, h1, h2, CartAddResult.statusOf]

/-- Witness for the amended C7 at a concrete state and body. -/
theorem claim_C7_witness :
    carritoAddRoute_v1 ⟨[], 5⟩ 3 ⟨none, none⟩
      = (.unhandled .notNullViolation, ⟨[], 5⟩) ∧
    carritoAddRoute_v2 ⟨[], 5⟩ 3 ⟨none, none⟩
      = (.unhandled .notNullViolation, ⟨[], 5⟩) ∧
    (carritoAddRoute_v1 ⟨[], 5⟩ 3 ⟨none, none⟩).1.statusOf ≠ some 400 ∧
    (carritoAddRoute_v2 ⟨[], 5⟩ 3 ⟨none, none⟩).1.statusOf ≠ some 400 :=
  claim_C7 ⟨[], 5⟩ 3 ⟨none, none⟩ rfl

/-- Claim C8 counterexample: in the first-revision handler (the one that does
not default the quantity), a cart-add with a productId but no quantity does
NOT behave as quantity 1 — the query receives NULL, violates the NOT NULL
constraint, and no row is created or incremented. -/
theorem claim_C8_counterexample :
    carritoAddRoute_v1 ⟨[], 0⟩ 1 ⟨some 2, none⟩
      = (.unhandled .notNullViolation, ⟨[], 0⟩) ∧
    rowsFor ⟨[], 0⟩ 1 2 = [] ∧
    (CartAddResult.unhandled DbError.notNullViolation).statusOf ≠ some 201 := by
  decide

/-- Claim C8 (amended): in the second-revision handler (`cantidad || 1`), an
omitted quantity behaves exactly as quantity 1 — a fresh line is created with
quantity 1, or the existing line is incremented by 1; in the first-revision
handler the omitted quantity is passed through as NULL and the add fails with
an unhandled NOT NULL violation, leaving the cart unchanged. -/
theorem claim_C8 (st : CarritoState) (uid pid : Nat) :
    (rowsFor st uid pid = [] →
      carritoAddRoute_v2 st uid ⟨some pid, none⟩
        = (.created ⟨st.nextId, uid, pid, 1⟩,
           ⟨st.rows ++ [⟨st.nextId, uid, pid, 1⟩], st.nextId + 1⟩)) ∧
    (∀ r, rowsFor st uid pid = [r] →
      ∃ st', carritoAddRoute_v2 st uid ⟨some pid, none⟩
          = (.created { r with cantidad := r.cantidad + 1 }, st') ∧
        rowsFor st' uid pid = [{ r with cantidad := r.cantidad + 1 }]) ∧
    carritoAddRoute_v1 st uid ⟨some pid, none⟩
      = (.unhandled .notNullViolation, st) := by
  refine ⟨fun habs => ?_, fun r hfil => ?_, ?_⟩
  · have hfind : st.rows.find? (cartKey uid pid) = none :=
      find?_eq_none_of_filter_eq_nil habs
    have : jsOrOne none = 1 := rfl
    simp [carritoAddRoute_v2, carritoAdd_v2, this,
      carritoUpsert_insert st uid pid 1 hfind]
  · have hfil' : st.rows.filter (cartKey uid pid) = [r] := hfil
    have hfind : st.rows.find? (cartKey uid pid) = some r :=
      find?_eq_some_of_filter_eq_singleton hfil'
    have hkr : cartKey uid pid r = true := by
      have hmem : r ∈ st.rows.filter (cartKey uid pid) := by
        rw [hfil']; exact List.mem_singleton_self r
      exact (List.mem_filter.1 hmem).2
    have hkr' : cartKey uid pid { r with cantidad := r.cantidad + 1 } = true := by
      simpa [cartKey] using hkr
    refine ⟨{ st with rows := st.rows.map (fun s =>
        if cartKey uid pid s then { r with cantidad := r.cantidad + 1 } else s) },
      ?_, ?_⟩
    · have : jsOrOne none = 1 := rfl
      simp [carritoAddRoute_v2, carritoAdd_v2, this,
        carritoUpsert_update st uid pid 1 r hfind]
    · simp only [rowsFor, filter_map_update _ _ hkr', hfil']
      rfl
  · simp [carritoAddRoute_v1, carritoAdd_v1, carritoUpsert]

/-- Witness for the amended C8: empty cart (fresh insert gets quantity 1) and
one-row cart (increment by 1), plus the first-revision failure. -/
theorem claim_C8_witness :
    (rowsFor ⟨[], 0⟩ 1 2 = [] →
      carritoAddRoute_v2 ⟨[], 0⟩ 1 ⟨some 2, none⟩
        = (.created ⟨0, 1, 2, 1⟩, ⟨[⟨0, 1, 2, 1⟩], 1⟩)) ∧
    (∀ r, rowsFor ⟨[], 0⟩ 1 2 = [r] →
      ∃ st', carritoAddRoute_v2 ⟨[], 0⟩ 1 ⟨some 2, none⟩
          = (.created { r with cantidad := r.cantidad + 1 }, st') ∧
        rowsFor st' 1 2 = [{ r with cantidad := r.cantidad + 1 }]) ∧
    carritoAddRoute_v1 ⟨[], 0⟩ 1 ⟨some 2, none⟩
      = (.unhandled .notNullViolation, ⟨[], 0⟩) :=
  claim_C8 ⟨[], 0⟩ 1 2

/-- Claim C4 (spec-modelled save handler): saving the same wishlist item
twice creates the row only once (201), and the second call is a no-op that
leaves the table unchanged and responds 200, distinguishable from the 201 of
the first call. -/
theorem claim_C4 (st : SavedState) (uid pid : Nat)
    (habs : savedRowsFor st uid pid = []) :
    guardarCamiseta st uid pid
      = (⟨st.rows ++ [⟨st.nextId, uid, pid⟩], st.nextId + 1⟩, 201) ∧
    savedRowsFor ⟨st.rows ++ [⟨st.nextId, uid, pid⟩], st.nextId + 1⟩ uid pid
      = [⟨st.nextId, uid, pid⟩] ∧
    guardarCamiseta ⟨st.rows ++ [⟨st.nextId, uid, pid⟩], st.nextId + 1⟩ uid pid
      = (⟨st.rows ++ [⟨st.nextId, uid, pid⟩], st.nextId + 1⟩, 200) := by
  have habs' : st.rows.filter
      (fun r => r.usuario_id == uid && r.producto_id == pid) = [] := habs
  have hany : st.rows.any
      (fun r => r.usuario_id == uid && r.producto_id == pid) = false := by
    rw [List.any_eq_false]
    intro x hx
    exact fun hpx => (List.filter_eq_nil_iff.1 habs' x hx) hpx
  refine ⟨?_, ?_, ?_⟩
  · simp [guardarCamiseta, hany]
  · simp [savedRowsFor, List.filter_append, habs']
  · simp [guardarCamiseta]

/-- Witness for C4: empty wishlist, user 1, product 2. -/
theorem claim_C4_witness :
    savedRowsFor ⟨[], 0⟩ 1 2 = [] ∧
    (guardarCamiseta ⟨[], 0⟩ 1 2 = (⟨[⟨0, 1, 2⟩], 1⟩, 201) ∧
     savedRowsFor ⟨[⟨0, 1, 2⟩], 1⟩ 1 2 = [⟨0, 1, 2⟩] ∧
     guardarCamiseta ⟨[⟨0, 1, 2⟩], 1⟩ 1 2 = (⟨[⟨0, 1, 2⟩], 1⟩, 200)) :=
  ⟨rfl, claim_C4 ⟨[], 0⟩ 1 2 rfl⟩

/-- Claim C3: (i) any sequence of set-preference requests preserves the
at-most-one-row-per-user invariant; (ii) a valid set-preference request
always responds 201 with exactly the row now stored for the caller, carrying
the request's team id, name and logo; (iii) setting a preference twice with
different teams leaves a single row for the user holding the second call's
team id, name and logo, which is also the returned row. -/
theorem claim_C3 :
    (∀ ops st, prefInv st → prefInv (applyPrefOps ops st)) ∧
    (∀ st uid eid nombre logo, prefInv st →
      eid ≠ 0 → nombre ≠ "" → logo ≠ "" →
      ∃ st' r, preferenciasRoute st uid eid nombre logo = (.created r, st') ∧
        prefRowsFor st' uid = [r] ∧
        r.usuario_id = uid ∧ r.equipo_favorito_id = eid ∧
        r.equipo_favorito_nombre = nombre ∧ r.equipo_favorito_logo = logo) ∧
    (∀ st uid e1 n1 l1 e2 n2 l2, prefRowsFor st uid = [] →
      e1 ≠ 0 → n1 ≠ "" → l1 ≠ "" → e2 ≠ 0 → n2 ≠ "" → l2 ≠ "" →
      ∃ st1 st2,
        preferenciasRoute st uid e1 n1 l1
          = (.created ⟨st.nextId, uid, e1, n1, l1⟩, st1) ∧
        preferenciasRoute st1 uid e2 n2 l2
          = (.created ⟨st.nextId, uid, e2, n2, l2⟩, st2) ∧
        prefRowsFor st2 uid = [⟨st.nextId, uid, e2, n2, l2⟩]) := by
  refine ⟨applyPrefOps_inv, ?_, ?_⟩
  · intro st uid eid nombre logo hinv he hn hl
    rw [preferenciasRoute_valid st uid eid nombre logo he hn hl]
    cases hfind : st.rows.find? (prefKey uid) with
    | none =>
      rw [prefUpsert_insert st uid eid nombre logo hfind]
      refine ⟨_, _, rfl, ?_, rfl, rfl, rfl, rfl⟩
      have hfil : st.rows.filter (prefKey uid) = [] :=
        filter_eq_nil_of_find?_eq_none hfind
      simp [prefRowsFor, List.filter_append, hfil, prefKey]
    | some r =>
      rw [prefUpsert_update st uid eid nombre logo r hfind]
      have hkr : prefKey uid r = true := List.find?_some hfind
      have hkr' : prefKey uid ({ r with
          equipo_favorito_id := eid
          equipo_favorito_nombre := nombre
          equipo_favorito_logo := logo } : PrefRow) = true := by
        simpa [prefKey] using hkr
      have hfil : st.rows.filter (prefKey uid) = [r] :=
        filter_eq_singleton_of_find? hfind (hinv uid)
      refine ⟨_, _, rfl, ?_, ?_, rfl, rfl, rfl⟩
      · simp only [prefRowsFor]
        rw [filter_map_update _ _ hkr', hfil]
        rfl
      · simpa [prefKey] using hkr
  · intro st uid e1 n1 l1 e2 n2 l2 hfil he1 hn1 hl1 he2 hn2 hl2
    have hfil' : st.rows.filter (prefKey uid) = [] := hfil
    have hfind : st.rows.find? (prefKey uid) = none :=
      find?_eq_none_of_filter_eq_nil hfil'
    have hkr1 : prefKey uid (⟨st.nextId, uid, e1, n1, l1⟩ : PrefRow) = true := by
      simp [prefKey]
    have hfind1 : (st.rows ++ [(⟨st.nextId, uid, e1, n1, l1⟩ : PrefRow)]).find?
        (prefKey uid) = some ⟨st.nextId, uid, e1, n1, l1⟩ :=
      find?_append_singleton hfind hkr1
    have hkr2 : prefKey uid (⟨st.nextId, uid, e2, n2, l2⟩ : PrefRow) = true := by
      simp [prefKey]
    refine ⟨⟨st.rows ++ [⟨st.nextId, uid, e1, n1, l1⟩], st.nextId + 1⟩,
      ⟨(st.rows ++ [(⟨st.nextId, uid, e1, n1, l1⟩ : PrefRow)]).map
          (fun s => if prefKey uid s then ⟨st.nextId, uid, e2, n2, l2⟩ else s),
        st.nextId + 1⟩, ?_, ?_, ?_⟩
    · rw [preferenciasRoute_valid st uid e1 n1 l1 he1 hn1 hl1,
        prefUpsert_insert st uid e1 n1 l1 hfind]
    · rw [preferenciasRoute_valid _ uid e2 n2 l2 he2 hn2 hl2,
        prefUpsert_update _ uid e2 n2 l2 _ hfind1]
    · simp only [prefRowsFor]
      rw [filter_map_update _ _ hkr2, List.filter_append, hfil']
      simp [hkr1]

/-- Witness for C3: empty table, user 1 setting team 5 then team 6. -/
theorem claim_C3_witness :
    prefInv (applyPrefOps [⟨1, 5, "A", "x"⟩, ⟨2, 6, "B", "y"⟩] ⟨[], 0⟩) ∧
    (∃ st' r, preferenciasRoute ⟨[], 0⟩ 1 5 "A" "x" = (.created r, st') ∧
      prefRowsFor st' 1 = [r] ∧
      r.usuario_id = 1 ∧ r.equipo_favorito_id = 5 ∧
      r.equipo_favorito_nombre = "A" ∧ r.equipo_favorito_logo = "x") ∧
    (∃ st1 st2,
      preferenciasRoute ⟨[], 0⟩ 1 5 "A" "x" = (.created ⟨0, 1, 5, "A", "x"⟩, st1) ∧
      preferenciasRoute st1 1 6 "B" "y" = (.created ⟨0, 1, 6, "B", "y"⟩, st2) ∧
      prefRowsFor st2 1 = [⟨0, 1, 6, "B", "y"⟩]) := by
  have hinv0 : prefInv ⟨[], 0⟩ := fun uid => by simp [prefRowsFor]
  refine ⟨claim_C3.1 _ _ hinv0,
    claim_C3.2.1 ⟨[], 0⟩ 1 5 "A" "x" hinv0 (by decide) (by decide) (by decide),
    claim_C3.2.2 ⟨[], 0⟩ 1 5 "A" "x" 6 "B" "y" rfl (by decide) (by decide)
      (by decide) (by decide) (by decide) (by decide)⟩

/-- Claim C9 counterexample: with a verified Google identity whose external
id is already attached to a user row with a DIFFERENT email, and no row for
the identity's own email, the handler does not create a user and does not
issue a session token — the insert violates the UNIQUE constraint on
`google_id` and the catch block answers 401. -/
theorem claim_C9_counterexample :
    (⟨[⟨1, "A", "a", none, some "g"⟩], 2⟩ : GUserDb).rows.find?
      (fun u => u.email == "b") = none ∧
    authGoogle ⟨[⟨1, "A", "a", none, some "g"⟩], 2⟩ "g" "b" "B"
      = (⟨401, none⟩, ⟨[⟨1, "A", "a", none, some "g"⟩], 2⟩) := by
  decide

/-- Claim C9 (amended): provided the external id is not already attached to a
row with a different email, the federated login behaves exactly as claimed:
no row for the email — a row is created with NULL password and the external
id attached; a row without the id — the id is attached to it (idempotent
linking); a row already carrying the id — returned as is, nothing modified;
in all three cases a session token is issued for that user (status 200). -/
theorem claim_C9 (db : GUserDb) (gid email name : String)
    (hg : ∀ u ∈ db.rows, u.google_id = some gid → u.email = email) :
    (db.rows.find? (fun u => u.email == email) = none →
      authGoogle db gid email name
        = (⟨200, some db.nextId⟩,
           ⟨db.rows ++ [⟨db.nextId, name, email, none, some gid⟩],
            db.nextId + 1⟩)) ∧
    (∀ u, db.rows.find? (fun u => u.email == email) = some u →
      u.google_id = none →
      authGoogle db gid email name
        = (⟨200, some u.id⟩,
           ⟨db.rows.map (fun v => if v.email == email
              then { v with google_id := some gid } else v), db.nextId⟩)) ∧
    (∀ u, db.rows.find? (fun u => u.email == email) = some u →
      u.google_id = some gid →
      authGoogle db gid email name = (⟨200, some u.id⟩, db)) := by
  refine ⟨fun hfind => ?_, fun u hfind hgid => ?_, fun u hfind hgid => ?_⟩
  · have hnoemail : db.rows.any (fun u => u.email == email) = false := by
      rw [List.any_eq_false]
      intro u hu
      exact (List.find?_eq_none.1 hfind) u hu
    have hnogid : db.rows.any (fun u => u.google_id == some gid) = false := by
      rw [List.any_eq_false]
      intro u hu hbe
      have hsome : u.google_id = some gid := by simpa using hbe
      have heq := hg u hu hsome
      exact (List.find?_eq_none.1 hfind) u hu (by simp [heq])
    simp [authGoogle, hfind, gInsertUsuario, hnoemail, hnogid]
  · have hnoOther : db.rows.any
        (fun v => v.email != email && v.google_id == some gid) = false := by
      rw [List.any_eq_false]
      intro v hv hb
      simp at hb
      obtain ⟨hne, hgd⟩ := hb
      exact hne (hg v hv hgd)
    simp [authGoogle, hfind, hgid, gAttachGoogleId, hnoOther]
  · simp [authGoogle, hfind, hgid]

/-- Witness for the amended C9: all three cases at concrete databases — fresh
email, linkable row, already-linked row. -/
theorem claim_C9_witness :
    authGoogle ⟨[], 0⟩ "g" "a" "N"
      = (⟨200, some 0⟩, ⟨[⟨0, "N", "a", none, some "g"⟩], 1⟩) ∧
    authGoogle ⟨[⟨1, "A", "a", none, none⟩], 2⟩ "g" "a" "N"
      = (⟨200, some 1⟩, ⟨[⟨1, "A", "a", none, some "g"⟩], 2⟩) ∧
    authGoogle ⟨[⟨1, "A", "a", none, some "g"⟩], 2⟩ "g" "a" "N"
      = (⟨200, some 1⟩, ⟨[⟨1, "A", "a", none, some "g"⟩], 2⟩) := by
  refine ⟨?_, ?_, ?_⟩
  · have h := (claim_C9 ⟨[], 0⟩ "g" "a" "N"
      (by intro u hu; simp at hu)).1 (by decide)
    simpa using h
  · have h := (claim_C9 ⟨[⟨1, "A", "a", none, none⟩], 2⟩ "g" "a" "N"
      (by
        intro u hu hgd
        rw [List.mem_singleton] at hu
        subst hu
        exact Option.noConfusion hgd)).2.1
      ⟨1, "A", "a", none, none⟩ (by decide) rfl
    simpa using h
  · exact (claim_C9 ⟨[⟨1, "A", "a", none, some "g"⟩], 2⟩ "g" "a" "N"
      (by
        intro u hu hgd
        rw [List.mem_singleton] at hu
        subst hu
        rfl)).2.2
      ⟨1, "A", "a", none, some "g"⟩ (by decide) rfl

end Futbolapp
